import Mathlib

/-!
Verification development for the Orca LP Range Manager's decision engine
(strategy.ts), range geometry (orca.ts) and migration orchestrator
(rebalance.ts), shallowly embedded in Lean 4.

Conventions of the embedding:
* TypeScript `number` timestamps (milliseconds from `Date.now()`) and
  prices are embedded as `ℚ`; tick indices as `ℤ`; token amounts as `ℕ`.
* The venue SDK (`@orca-so/whirlpools-sdk`) is an external collaborator:
  its pure conversions (`tickIndexToPrice`, `priceToInitializableTickIndex`,
  `sqrtPriceX64ToPrice`) are taken as function parameters, and the outcomes
  of its effectful calls (collect / close / open / balances / deposit) are
  taken as an explicit record of outcomes, one per call site, matching the
  return contract of each wrapper in orca.ts.
* `Date.now()` reads are passed as explicit `now` parameters, one per call
  site that reads the clock.
-/

namespace StableBot

/-- TriggerReason from strategy.ts: 'out_of_range' | 'near_lower_edge'
| 'near_upper_edge' | 'none'. -/
inductive TriggerReason where
  | none
  | out_of_range
  | near_lower_edge
  | near_upper_edge
deriving DecidableEq, Repr

/-- PositionInfo from orca.ts (addresses as strings, amounts as ℕ). -/
structure PositionInfo where
  address : String
  whirlpool : String
  tickLowerIndex : ℤ
  tickUpperIndex : ℤ
  liquidity : ℕ
  feeOwedA : ℕ
  feeOwedB : ℕ
  rewardOwed : List ℕ
deriving DecidableEq

/-- WhirlpoolInfo from orca.ts. -/
structure WhirlpoolInfo where
  address : String
  tokenMintA : String
  tokenMintB : String
  tickSpacing : ℤ
  sqrtPrice : ℕ
  currentTickIndex : ℤ
  liquidity : ℕ
  feeRate : ℚ
deriving DecidableEq

/-- PriceRange from orca.ts. -/
structure PriceRange where
  lowerPrice : ℚ
  upperPrice : ℚ
  lowerTick : ℤ
  upperTick : ℤ
  centerPrice : ℚ
deriving DecidableEq

/-- StrategyState from strategy.ts. `lastRebalanceTime` is a millisecond
timestamp; `dwellStartTime` likewise when present. -/
structure StrategyState where
  triggerReason : TriggerReason
  dwellStartTime : Option ℚ
  dwellReason : Option TriggerReason
  lastRebalanceTime : ℚ
  currentPosition : Option PositionInfo
  currentPriceRange : Option PriceRange
deriving DecidableEq

/-- StrategyParams from strategy.ts. -/
structure StrategyParams where
  rangeWidthPercent : ℚ
  edgeBufferPercent : ℚ
  dwellSeconds : ℚ
  minRebalanceIntervalSeconds : ℚ
deriving DecidableEq

/-- Embeds `createStrategyState` from strategy.ts. -/
def createStrategyState : StrategyState :=
  { triggerReason := .none
    dwellStartTime := Option.none
    dwellReason := Option.none
    lastRebalanceTime := 0
    currentPosition := Option.none
    currentPriceRange := Option.none }

/-- Embeds `isPriceInRange` from orca.ts:
`currentTick >= lowerTick && currentTick < upperTick`. -/
def isPriceInRange (currentTick lowerTick upperTick : ℤ) : Bool :=
  decide (currentTick ≥ lowerTick) && decide (currentTick < upperTick)

/-- Result record of `calculateEdgeDistance` in orca.ts; `nearestEdge` is
the 'lower' | 'upper' string literal. -/
structure EdgeDistance where
  lower : ℚ
  upper : ℚ
  nearestEdge : Bool  -- true = 'lower', false = 'upper'
deriving DecidableEq

/-- Embeds `calculateEdgeDistance` from orca.ts. -/
def calculateEdgeDistance (currentTick lowerTick upperTick : ℤ) :
    EdgeDistance :=
  let rangeWidth : ℚ := ((upperTick - lowerTick : ℤ) : ℚ)
  let distanceToLower : ℚ := ((currentTick - lowerTick : ℤ) : ℚ)
  let distanceToUpper : ℚ := ((upperTick - currentTick : ℤ) : ℚ)
  let lower := distanceToLower / rangeWidth
  let upper := distanceToUpper / rangeWidth
  { lower := lower
    upper := upper
    nearestEdge := decide (lower < upper) }

/-- The `details` record inside TriggerResult (strategy.ts). -/
structure TriggerDetails where
  currentTick : ℤ
  currentPrice : ℚ
  lowerTick : ℤ
  upperTick : ℤ
  lowerPrice : ℚ
  upperPrice : ℚ
  edgeDistance : Option (ℚ × ℚ)
  dwellElapsed : Option ℚ
  timeSinceLastRebalance : Option ℚ
deriving DecidableEq

/-- TriggerResult from strategy.ts. -/
structure TriggerResult where
  shouldRebalance : Bool
  reason : TriggerReason
  details : TriggerDetails
deriving DecidableEq

/-- Embeds `evaluateTrigger` from strategy.ts. `tickIndexToPrice` is the venue
SDK conversion (external collaborator), passed in. -/
def evaluateTrigger (tickIndexToPrice : ℤ → ℕ → ℕ → ℚ)
    (_state : StrategyState) (whirlpoolInfo : WhirlpoolInfo)
    (position : PositionInfo) (params : StrategyParams)
    (decimalsA decimalsB : ℕ) : TriggerResult :=
  let currentTick := whirlpoolInfo.currentTickIndex
  let currentPrice := tickIndexToPrice currentTick decimalsA decimalsB
  let lowerTick := position.tickLowerIndex
  let upperTick := position.tickUpperIndex
  let lowerPrice := tickIndexToPrice lowerTick decimalsA decimalsB
  let upperPrice := tickIndexToPrice upperTick decimalsA decimalsB
  let inRange := isPriceInRange currentTick lowerTick upperTick
  let triggerReason : TriggerReason :=
    if !inRange then
      .out_of_range
    else if params.edgeBufferPercent > 0 then
      let edgeDistance := calculateEdgeDistance currentTick lowerTick upperTick
      if edgeDistance.lower < params.edgeBufferPercent then
        .near_lower_edge
      else if edgeDistance.upper < params.edgeBufferPercent then
        .near_upper_edge
      else
        .none
    else
      .none
  { shouldRebalance := !(triggerReason == .none)
    reason := triggerReason
    details :=
      { currentTick := currentTick
        currentPrice := currentPrice
        lowerTick := lowerTick
        upperTick := upperTick
        lowerPrice := lowerPrice
        upperPrice := upperPrice
        edgeDistance :=
          if inRange then
            some ((calculateEdgeDistance currentTick lowerTick upperTick).lower,
                  (calculateEdgeDistance currentTick lowerTick upperTick).upper)
          else
            Option.none
        dwellElapsed := Option.none
        timeSinceLastRebalance := Option.none } }

/-- Return record of `processDwell` (strategy.ts). -/
structure DwellOutcome where
  dwellCompleted : Bool
  state : StrategyState
deriving DecidableEq

/-- Embeds `processDwell` from strategy.ts. `now` stands for its `Date.now()` read. -/
def processDwell (state : StrategyState) (triggerResult : TriggerResult)
    (params : StrategyParams) (now : ℚ) : DwellOutcome :=
  if !triggerResult.shouldRebalance then
    -- Condition not met - reset dwell if it was active
    if state.dwellStartTime.isSome then
      { dwellCompleted := false
        state := { state with dwellStartTime := Option.none
                              dwellReason := Option.none } }
    else
      { dwellCompleted := false, state := state }
  else if state.dwellStartTime.isNone
      || !(state.dwellReason == some triggerResult.reason) then
    -- Start new dwell period
    { dwellCompleted := false
      state := { state with dwellStartTime := some now
                            dwellReason := some triggerResult.reason } }
  else
    -- guarded: dwellStartTime is some here, so the default is never read
    let start := state.dwellStartTime.getD 0
    let elapsedSeconds := (now - start) / 1000
    if elapsedSeconds ≥ params.dwellSeconds then
      { dwellCompleted := true, state := state }
    else
      { dwellCompleted := false, state := state }

/-- Return record of `checkCooldown` (strategy.ts). -/
structure CooldownOutcome where
  canRebalance : Bool
  timeRemaining : ℚ
deriving DecidableEq

/-- Embeds `checkCooldown` from strategy.ts. `now` stands for its `Date.now()` read. -/
def checkCooldown (state : StrategyState) (params : StrategyParams)
    (now : ℚ) : CooldownOutcome :=
  let timeSinceLastRebalance := (now - state.lastRebalanceTime) / 1000
  if timeSinceLastRebalance < params.minRebalanceIntervalSeconds then
    { canRebalance := false
      timeRemaining :=
        params.minRebalanceIntervalSeconds - timeSinceLastRebalance }
  else
    { canRebalance := true, timeRemaining := 0 }

/-- Return record of `runStrategyEvaluation` (strategy.ts). -/
structure EvaluationOutcome where
  shouldRebalance : Bool
  reason : TriggerReason
  newState : StrategyState
  details : TriggerDetails
deriving DecidableEq

/-- Embeds `runStrategyEvaluation` from strategy.ts: trigger → dwell → cooldown.
`nowDwell` and `nowCooldown` embed the two separate `Date.now()` reads
inside `processDwell` and `checkCooldown`. -/
def runStrategyEvaluation (tickIndexToPrice : ℤ → ℕ → ℕ → ℚ)
    (state : StrategyState) (whirlpoolInfo : WhirlpoolInfo)
    (position : PositionInfo) (params : StrategyParams)
    (decimalsA decimalsB : ℕ) (nowDwell nowCooldown : ℚ) :
    EvaluationOutcome :=
  let triggerResult :=
    evaluateTrigger tickIndexToPrice state whirlpoolInfo position params
      decimalsA decimalsB
  let pd := processDwell state triggerResult params nowDwell
  if !pd.dwellCompleted then
    { shouldRebalance := false
      reason := triggerResult.reason
      newState := pd.state
      details := triggerResult.details }
  else
    let cd := checkCooldown pd.state params nowCooldown
    if !cd.canRebalance then
      { shouldRebalance := false
        reason := triggerResult.reason
        newState := pd.state
        details :=
          { triggerResult.details with
              timeSinceLastRebalance :=
                some (params.minRebalanceIntervalSeconds - cd.timeRemaining) } }
    else
      { shouldRebalance := true
        reason := triggerResult.reason
        newState := pd.state
        details := triggerResult.details }

/-- Embeds `markRebalanceComplete` from strategy.ts. `now` stands for its
`Date.now()` read. -/
def markRebalanceComplete (state : StrategyState) (now : ℚ) :
    StrategyState :=
  { state with
      lastRebalanceTime := now
      dwellStartTime := Option.none
      dwellReason := Option.none
      triggerReason := .none }

/-- Modelled from the spec: `markRebalanceFailed` is imported and called
by rebalance.ts but its definition is absent from the sources. Per the
spec's total-failure fold ("clear dwell state ... but do NOT advance
lastMigrationTimestamp") and rebalance.ts's own comment ("use
markRebalanceFailed if failed to reset dwell without starting cooldown"),
it clears the dwell fields and leaves `lastRebalanceTime` untouched. -/
def markRebalanceFailed (state : StrategyState) : StrategyState :=
  { state with
      dwellStartTime := Option.none
      dwellReason := Option.none }

/-- Embeds `getCurrentPrice` from orca.ts, with the SDK's `sqrtPriceX64ToPrice`
passed in as the external collaborator it is. -/
def getCurrentPrice (sqrtPriceX64ToPrice : ℕ → ℕ → ℕ → ℚ)
    (whirlpoolInfo : WhirlpoolInfo) (decimalsA decimalsB : ℕ) : ℚ :=
  sqrtPriceX64ToPrice whirlpoolInfo.sqrtPrice decimalsA decimalsB

/-- Embeds `calculateTickRange` from orca.ts. `priceToInitializableTickIndex`
is the venue SDK conversion (external collaborator), passed in. -/
def calculateTickRange (priceToInitializableTickIndex : ℚ → ℕ → ℕ → ℤ → ℤ)
    (centerPrice : ℚ) (rangeWidthPercent : ℚ) (tickSpacing : ℤ)
    (decimalsA decimalsB : ℕ) : PriceRange :=
  -- Calculate lower and upper prices
  let multiplier := 1 + rangeWidthPercent
  let lowerPrice := centerPrice / multiplier
  let upperPrice := centerPrice * multiplier
  -- Convert prices to tick indices
  let lowerTick :=
    priceToInitializableTickIndex lowerPrice decimalsA decimalsB tickSpacing
  let upperTick :=
    priceToInitializableTickIndex upperPrice decimalsA decimalsB tickSpacing
  -- Ensure ticks are in correct order
  if lowerTick > upperTick then
    { lowerPrice := lowerPrice
      upperPrice := upperPrice
      lowerTick := upperTick
      upperTick := lowerTick
      centerPrice := centerPrice }
  else
    { lowerPrice := lowerPrice
      upperPrice := upperPrice
      lowerTick := lowerTick
      upperTick := upperTick
      centerPrice := centerPrice }

/-- The venue calls executeRebalance (rebalance.ts) can issue, in order
of the protocol steps. -/
inductive VenueCall where
  | collectFees    -- step 1: collectFeesAndRewards
  | closeOld       -- steps 2-3: closePosition (removes liquidity, closes)
  | openNew        -- step 4: openPosition
  | getBalances    -- step 5a: getTokenBalances
  | deposit        -- step 5b: depositLiquidity
deriving DecidableEq, BEq, Repr

/-- Outcomes the venue collaborator reports for the calls of one
migration attempt, per the return contract of each wrapper in orca.ts:
`collectFeesAndRewards` yields fee amounts or null, `closePosition` a
boolean, `openPosition` a new address or null, `getTokenBalances` the
wallet balances, `depositLiquidity` a boolean. -/
structure VenueOutcomes where
  fees : Option (ℕ × ℕ)
  closed : Bool
  newPositionAddress : Option String
  balanceA : ℕ
  balanceB : ℕ
  deposited : Bool
deriving DecidableEq

/-- RebalanceResult from rebalance.ts (addresses as strings; the
`feesCollected` strings as the underlying amounts). -/
structure RebalanceResult where
  success : Bool
  oldPosition : Option (String × ℤ × ℤ)
  newPosition : Option (String × ℤ × ℤ)
  feesCollected : Option (ℕ × ℕ)
  error : Option String
  transactions : List String
deriving DecidableEq

/-- Return of the embedded `executeRebalance`, extended with the trace
of venue calls the attempt issued, in order. -/
structure RebalanceOutcome where
  result : RebalanceResult
  newState : StrategyState
  calls : List VenueCall
deriving DecidableEq

/-- Embeds `executeRebalance` from rebalance.ts. The five steps run in order;
a throw (close failed, or open failed, both only outside dry-run) is
caught by the surrounding try/catch, which records the error and falls
through to the state fold: `markRebalanceComplete` on success,
`markRebalanceFailed` otherwise. `now` embeds the `Date.now()` read
inside `markRebalanceComplete`. -/
def executeRebalance (priceToInitializableTickIndex : ℚ → ℕ → ℕ → ℤ → ℤ)
    (sqrtPriceX64ToPrice : ℕ → ℕ → ℕ → ℚ)
    (dryRun : Bool) (rangeWidthPercent : ℚ)
    (state : StrategyState) (currentPosition : PositionInfo)
    (whirlpoolInfo : WhirlpoolInfo) (decimalsA decimalsB : ℕ)
    (outcomes : VenueOutcomes) (now : ℚ) : RebalanceOutcome :=
  let result0 : RebalanceResult :=
    { success := false
      oldPosition := some (currentPosition.address,
        currentPosition.tickLowerIndex, currentPosition.tickUpperIndex)
      newPosition := Option.none
      feesCollected := Option.none
      error := Option.none
      transactions := [] }
  -- Step 1: Collect fees and rewards (null return only skips the record)
  let result1 : RebalanceResult :=
    match outcomes.fees with
    | some f => { result0 with feesCollected := some f }
    | Option.none => result0
  -- Steps 2 & 3: Close old position (removes liquidity and closes)
  if !outcomes.closed && !dryRun then
    -- throw new Error('Failed to close old position'), caught below
    { result := { result1 with error := some "Failed to close old position" }
      newState := markRebalanceFailed state
      calls := [.collectFees, .closeOld] }
  else
    -- Step 4: Calculate new range and open position
    let currentPrice :=
      getCurrentPrice sqrtPriceX64ToPrice whirlpoolInfo decimalsA decimalsB
    let newRange :=
      calculateTickRange priceToInitializableTickIndex currentPrice
        rangeWidthPercent whirlpoolInfo.tickSpacing decimalsA decimalsB
    if outcomes.newPositionAddress.isNone && !dryRun then
      -- throw new Error('Failed to open new position'), caught below
      { result := { result1 with error := some "Failed to open new position" }
        newState := markRebalanceFailed state
        calls := [.collectFees, .closeOld, .openNew] }
    else
      let result2 : RebalanceResult :=
        if outcomes.newPositionAddress.isSome || dryRun then
          { result1 with
              newPosition := some (outcomes.newPositionAddress.getD "[DRY RUN]",
                newRange.lowerTick, newRange.upperTick) }
        else
          result1
      -- Step 5: Deposit available liquidity (failure only logs a warning)
      let depositAttempted :=
        (!(outcomes.balanceA == 0) || !(outcomes.balanceB == 0))
          && outcomes.newPositionAddress.isSome
      let calls5 : List VenueCall :=
        if depositAttempted then
          [.collectFees, .closeOld, .openNew, .getBalances, .deposit]
        else
          [.collectFees, .closeOld, .openNew, .getBalances]
      { result := { result2 with success := true }
        newState := markRebalanceComplete state now
        calls := calls5 }

/-! ### Helper lemmas -/

/-- In `evaluateTrigger` the `shouldRebalance` flag is by construction the
boolean `reason ≠ none`. -/
theorem evaluateTrigger_shouldRebalance (tickIndexToPrice : ℤ → ℕ → ℕ → ℚ)
    (state : StrategyState) (whirlpoolInfo : WhirlpoolInfo)
    (position : PositionInfo) (params : StrategyParams)
    (decimalsA decimalsB : ℕ) :
    (evaluateTrigger tickIndexToPrice state whirlpoolInfo position params
        decimalsA decimalsB).shouldRebalance
      = !((evaluateTrigger tickIndexToPrice state whirlpoolInfo position params
        decimalsA decimalsB).reason == .none) := rfl

/-- The function `processDwell` never touches `lastRebalanceTime`. -/
theorem processDwell_lastRebalanceTime (state : StrategyState)
    (triggerResult : TriggerResult) (params : StrategyParams) (now : ℚ) :
    (processDwell state triggerResult params now).state.lastRebalanceTime
      = state.lastRebalanceTime := by
  unfold processDwell
  dsimp only
  split_ifs <;> rfl

/-- When `processDwell` reports the dwell completed, it returns the input
state unchanged. -/
theorem processDwell_completed_state (state : StrategyState)
    (triggerResult : TriggerResult) (params : StrategyParams) (now : ℚ)
    (h : (processDwell state triggerResult params now).dwellCompleted = true) :
    (processDwell state triggerResult params now).state = state := by
  unfold processDwell at h ⊢
  dsimp only at h ⊢
  split_ifs at h ⊢
  simp_all

/-- When `processDwell` reports the dwell completed, the trigger result it
was fed had `shouldRebalance = true`. -/
theorem processDwell_completed_shouldRebalance (state : StrategyState)
    (triggerResult : TriggerResult) (params : StrategyParams) (now : ℚ)
    (h : (processDwell state triggerResult params now).dwellCompleted = true) :
    triggerResult.shouldRebalance = true := by
  unfold processDwell at h
  split_ifs at h with h1
  simp_all

/-! ### C5: cooldown gate -/

/-- C5: for every `lastMigrationTimestamp` (the state's
`lastRebalanceTime`), `now` and `minInterval`, `checkCooldown` allows
exactly when the elapsed seconds `(now - lastRebalanceTime) / 1000` reach
`minRebalanceIntervalSeconds`, with the boundary inclusive; when it
blocks, it reports the remaining duration; and it returns no state at
all, so it mutates nothing. -/
theorem checkCooldown_boundary (state : StrategyState)
    (params : StrategyParams) (now : ℚ) :
    ((checkCooldown state params now).canRebalance = true ↔
      params.minRebalanceIntervalSeconds
        ≤ (now - state.lastRebalanceTime) / 1000) ∧
    ((checkCooldown state params now).canRebalance = false →
      (checkCooldown state params now).timeRemaining
        = params.minRebalanceIntervalSeconds
            - (now - state.lastRebalanceTime) / 1000) ∧
    ((now - state.lastRebalanceTime) / 1000
        = params.minRebalanceIntervalSeconds →
      (checkCooldown state params now).canRebalance = true) ∧
    ((now - state.lastRebalanceTime) / 1000
        = params.minRebalanceIntervalSeconds - 1 →
      (checkCooldown state params now).canRebalance = false) := by
  unfold checkCooldown
  dsimp only
  refine ⟨?_, ?_, ?_, ?_⟩
  · split_ifs with h <;> simp <;> linarith
  · intro hb
    split_ifs at hb ⊢ with h
    rfl
  · intro heq
    split_ifs with h
    · rw [heq] at h
      exact absurd h (lt_irrefl _)
    · rfl
  · intro heq
    split_ifs with h
    · rfl
    · rw [heq] at h
      exact absurd (show params.minRebalanceIntervalSeconds - 1
        < params.minRebalanceIntervalSeconds by linarith) h

/-- Witness for C5 at the boundary: with `lastRebalanceTime = 0` and
`minRebalanceIntervalSeconds = 180`, the gate allows at `now = 180000` ms
(elapsed exactly 180 s) and blocks at `now = 179000` ms (one second
less), reporting 1 s remaining. -/
theorem checkCooldown_boundary_witness :
    (checkCooldown createStrategyState ⟨1/10, 2/100, 10, 180⟩
        180000).canRebalance = true ∧
    (checkCooldown createStrategyState ⟨1/10, 2/100, 10, 180⟩
        179000).canRebalance = false ∧
    (checkCooldown createStrategyState ⟨1/10, 2/100, 10, 180⟩
        179000).timeRemaining = 1 := by
  have h1 := (checkCooldown_boundary createStrategyState
    ⟨1/10, 2/100, 10, 180⟩ 180000).2.2.1 (by norm_num [createStrategyState])
  have h2 := (checkCooldown_boundary createStrategyState
    ⟨1/10, 2/100, 10, 180⟩ 179000).2.2.2 (by norm_num [createStrategyState])
  have h3 := (checkCooldown_boundary createStrategyState
    ⟨1/10, 2/100, 10, 180⟩ 179000).2.1 h2
  refine ⟨h1, h2, ?_⟩
  rw [h3]
  norm_num [createStrategyState]

/-! ### C9: edge-distance division safety -/

/-- C9: the trigger evaluator invokes `calculateEdgeDistance` only under
the in-range guard `isPriceInRange` (visible in the definition of
`evaluateTrigger`), and under that guard the range width
`upperTick - lowerTick` — the divisor of both normalized distances — is
strictly positive, so the division-by-zero case `lowerTick = upperTick`
is unreachable from the evaluator; moreover the two normalized distances
are then genuine fractions of the width, summing to 1. -/
theorem calculateEdgeDistance_divisor_pos (currentTick lowerTick upperTick : ℤ)
    (h : isPriceInRange currentTick lowerTick upperTick = true) :
    0 < upperTick - lowerTick ∧
    ((upperTick - lowerTick : ℤ) : ℚ) ≠ 0 ∧
    (calculateEdgeDistance currentTick lowerTick upperTick).lower
      + (calculateEdgeDistance currentTick lowerTick upperTick).upper = 1 := by
  unfold isPriceInRange at h
  simp only [Bool.and_eq_true, decide_eq_true_eq] at h
  have hlt : lowerTick < upperTick := lt_of_le_of_lt h.1 h.2
  have hpos : 0 < upperTick - lowerTick := by omega
  have hne : ((upperTick - lowerTick : ℤ) : ℚ) ≠ 0 := by
    exact_mod_cast Int.ne_of_gt hpos
  refine ⟨hpos, hne, ?_⟩
  unfold calculateEdgeDistance
  dsimp only
  rw [div_add_div_same]
  rw [show ((currentTick - lowerTick : ℤ) : ℚ)
      + ((upperTick - currentTick : ℤ) : ℚ)
      = ((upperTick - lowerTick : ℤ) : ℚ) by push_cast; ring]
  exact div_self hne

/-- Witness for C9: at `currentTick = 5`, bounds `[0, 10)`, the guard
holds, the width is positive and the distances sum to 1. -/
theorem calculateEdgeDistance_divisor_pos_witness :
    0 < (10 : ℤ) - 0 ∧
    (((10 : ℤ) - 0 : ℤ) : ℚ) ≠ 0 ∧
    (calculateEdgeDistance 5 0 10).lower
      + (calculateEdgeDistance 5 0 10).upper = 1 :=
  calculateEdgeDistance_divisor_pos 5 0 10 (by decide)

/-! ### C2: trigger classification -/

/-- Unfolded form of the `reason` computed by `evaluateTrigger`. -/
theorem evaluateTrigger_reason_def (tickIndexToPrice : ℤ → ℕ → ℕ → ℚ)
    (state : StrategyState) (w : WhirlpoolInfo) (pos : PositionInfo)
    (params : StrategyParams) (decimalsA decimalsB : ℕ) :
    (evaluateTrigger tickIndexToPrice state w pos params
        decimalsA decimalsB).reason
      = (if !(isPriceInRange w.currentTickIndex pos.tickLowerIndex
            pos.tickUpperIndex) then
          TriggerReason.out_of_range
        else if params.edgeBufferPercent > 0 then
          if (calculateEdgeDistance w.currentTickIndex pos.tickLowerIndex
              pos.tickUpperIndex).lower < params.edgeBufferPercent then
            TriggerReason.near_lower_edge
          else if (calculateEdgeDistance w.currentTickIndex pos.tickLowerIndex
              pos.tickUpperIndex).upper < params.edgeBufferPercent then
            TriggerReason.near_upper_edge
          else
            TriggerReason.none
        else
          TriggerReason.none) := rfl

/-- The `lower` field of `calculateEdgeDistance` is the normalized
distance to the lower bound. -/
theorem calculateEdgeDistance_lower (currentTick lowerTick upperTick : ℤ) :
    (calculateEdgeDistance currentTick lowerTick upperTick).lower
      = ((currentTick - lowerTick : ℤ) : ℚ)
          / ((upperTick - lowerTick : ℤ) : ℚ) := rfl

/-- With a positive range width, the code's normalized distance to the
upper bound equals `1 -` the normalized distance to the lower bound. -/
theorem calculateEdgeDistance_upper_eq (currentTick lowerTick upperTick : ℤ)
    (hlt : lowerTick < upperTick) :
    (calculateEdgeDistance currentTick lowerTick upperTick).upper
      = 1 - ((currentTick - lowerTick : ℤ) : ℚ)
          / ((upperTick - lowerTick : ℤ) : ℚ) := by
  have hne : ((upperTick - lowerTick : ℤ) : ℚ) ≠ 0 := by
    exact_mod_cast Int.ne_of_gt (by omega : (0 : ℤ) < upperTick - lowerTick)
  show ((upperTick - currentTick : ℤ) : ℚ) / ((upperTick - lowerTick : ℤ) : ℚ)
      = 1 - ((currentTick - lowerTick : ℤ) : ℚ)
          / ((upperTick - lowerTick : ℤ) : ℚ)
  rw [eq_sub_iff_add_eq, div_add_div_same,
    show ((upperTick - currentTick : ℤ) : ℚ)
        + ((currentTick - lowerTick : ℤ) : ℚ)
        = ((upperTick - lowerTick : ℤ) : ℚ) by push_cast; ring]
  exact div_self hne

/-- C2: with `lowerTick < upperTick`, `evaluateTrigger` classifies
`out_of_range` exactly on `currentTick < lowerTick ∨ upperTick ≤
currentTick` (upper bound exclusive), for every `edgeBufferPercent`;
in range with `edgeBufferPercent > 0` it returns `near_lower_edge` when
the normalized distance to the lower bound is below the buffer, else
`near_upper_edge` when `1 -` that distance is below the buffer, else
`none`; in range with `edgeBufferPercent = 0` it returns `none`. -/
theorem evaluateTrigger_reason_classification
    (tickIndexToPrice : ℤ → ℕ → ℕ → ℚ)
    (state : StrategyState) (w : WhirlpoolInfo) (pos : PositionInfo)
    (params : StrategyParams) (decimalsA decimalsB : ℕ)
    (hlt : pos.tickLowerIndex < pos.tickUpperIndex) :
    ((evaluateTrigger tickIndexToPrice state w pos params
        decimalsA decimalsB).reason = .out_of_range
      ↔ (w.currentTickIndex < pos.tickLowerIndex
          ∨ pos.tickUpperIndex ≤ w.currentTickIndex)) ∧
    (pos.tickLowerIndex ≤ w.currentTickIndex →
      w.currentTickIndex < pos.tickUpperIndex →
      0 < params.edgeBufferPercent →
      (evaluateTrigger tickIndexToPrice state w pos params
          decimalsA decimalsB).reason
        = (if ((w.currentTickIndex - pos.tickLowerIndex : ℤ) : ℚ)
              / ((pos.tickUpperIndex - pos.tickLowerIndex : ℤ) : ℚ)
              < params.edgeBufferPercent then
            TriggerReason.near_lower_edge
          else if 1 - ((w.currentTickIndex - pos.tickLowerIndex : ℤ) : ℚ)
              / ((pos.tickUpperIndex - pos.tickLowerIndex : ℤ) : ℚ)
              < params.edgeBufferPercent then
            TriggerReason.near_upper_edge
          else
            TriggerReason.none)) ∧
    (pos.tickLowerIndex ≤ w.currentTickIndex →
      w.currentTickIndex < pos.tickUpperIndex →
      params.edgeBufferPercent = 0 →
      (evaluateTrigger tickIndexToPrice state w pos params
          decimalsA decimalsB).reason = .none) := by
  rw [evaluateTrigger_reason_def]
  refine ⟨?_, ?_, ?_⟩
  · by_cases hin : isPriceInRange w.currentTickIndex pos.tickLowerIndex
        pos.tickUpperIndex = true
    · have hrange : pos.tickLowerIndex ≤ w.currentTickIndex
          ∧ w.currentTickIndex < pos.tickUpperIndex := by
        unfold isPriceInRange at hin
        simpa using hin
      rw [hin]
      simp only [Bool.not_true, Bool.false_eq_true, if_false]
      constructor
      · intro hcontra
        split_ifs at hcontra
      · intro hout
        omega
    · have hb : isPriceInRange w.currentTickIndex pos.tickLowerIndex
          pos.tickUpperIndex = false := by
        simpa using hin
      have hout : w.currentTickIndex < pos.tickLowerIndex
          ∨ pos.tickUpperIndex ≤ w.currentTickIndex := by
        unfold isPriceInRange at hb
        simp only [Bool.and_eq_false_iff, decide_eq_false_iff_not, not_le,
          not_lt] at hb
        omega
      rw [hb]
      simp only [Bool.not_false, if_true]
      exact iff_of_true (by trivial) hout
  · intro h1 h2 he
    have hin : isPriceInRange w.currentTickIndex pos.tickLowerIndex
        pos.tickUpperIndex = true := by
      unfold isPriceInRange
      simp [h1, h2]
    rw [hin]
    simp only [Bool.not_true, Bool.false_eq_true, if_false, if_pos he]
    rw [calculateEdgeDistance_lower, calculateEdgeDistance_upper_eq _ _ _ hlt]
  · intro h1 h2 he
    have hin : isPriceInRange w.currentTickIndex pos.tickLowerIndex
        pos.tickUpperIndex = true := by
      unfold isPriceInRange
      simp [h1, h2]
    rw [hin]
    simp [he]

/-- Witness for C2: with bounds `[0, 100)` and a 2% buffer, tick 150 is
classified `out_of_range`, tick 1 (normalized distance 1/100) is
`near_lower_edge`, and with a zero buffer tick 50 is `none`. -/
theorem evaluateTrigger_reason_classification_witness :
    (evaluateTrigger (fun _ _ _ => 0) createStrategyState
        ⟨"w", "ma", "mb", 64, 0, 150, 0, 0⟩ ⟨"p", "w", 0, 100, 0, 0, 0, []⟩
        ⟨1/10, 2/100, 10, 180⟩ 6 6).reason = .out_of_range ∧
    (evaluateTrigger (fun _ _ _ => 0) createStrategyState
        ⟨"w", "ma", "mb", 64, 0, 1, 0, 0⟩ ⟨"p", "w", 0, 100, 0, 0, 0, []⟩
        ⟨1/10, 2/100, 10, 180⟩ 6 6).reason = .near_lower_edge ∧
    (evaluateTrigger (fun _ _ _ => 0) createStrategyState
        ⟨"w", "ma", "mb", 64, 0, 50, 0, 0⟩ ⟨"p", "w", 0, 100, 0, 0, 0, []⟩
        ⟨1/10, 0, 10, 180⟩ 6 6).reason = .none := by
  refine ⟨?_, ?_, ?_⟩
  · exact (evaluateTrigger_reason_classification (fun _ _ _ => 0)
      createStrategyState _ _ _ 6 6 (by decide)).1.mpr (by decide)
  · have h := (evaluateTrigger_reason_classification (fun _ _ _ => 0)
      createStrategyState ⟨"w", "ma", "mb", 64, 0, 1, 0, 0⟩
      ⟨"p", "w", 0, 100, 0, 0, 0, []⟩ ⟨1/10, 2/100, 10, 180⟩ 6 6
      (by decide)).2.1 (by decide) (by decide) (by norm_num)
    rw [h]
    norm_num
  · exact (evaluateTrigger_reason_classification (fun _ _ _ => 0)
      createStrategyState ⟨"w", "ma", "mb", 64, 0, 50, 0, 0⟩
      ⟨"p", "w", 0, 100, 0, 0, 0, []⟩ ⟨1/10, 0, 10, 180⟩ 6 6
      (by decide)).2.2 (by decide) (by decide) rfl

/-! ### C3: dwell tracker -/

/-- A firing-eligible `processDwell` call with no matching active dwell
starts a new dwell window at `now`. -/
theorem processDwell_start_new (state : StrategyState)
    (triggerResult : TriggerResult) (params : StrategyParams) (now : ℚ)
    (hsr : triggerResult.shouldRebalance = true)
    (hcond : state.dwellStartTime = Option.none
      ∨ state.dwellReason ≠ some triggerResult.reason) :
    processDwell state triggerResult params now
      = { dwellCompleted := false
          state := { state with dwellStartTime := some now
                                dwellReason := some triggerResult.reason } } := by
  unfold processDwell
  rw [hsr]
  simp only [Bool.not_true, Bool.false_eq_true, if_false]
  rw [if_pos]
  rcases hcond with h | h
  · simp [h]
  · simp [beq_eq_false_iff_ne, h]

/-- After a firing-eligible `processDwell` call the stored dwell reason is
the call's trigger reason. -/
theorem processDwell_reason_after (state : StrategyState)
    (triggerResult : TriggerResult) (params : StrategyParams) (now : ℚ)
    (hsr : triggerResult.shouldRebalance = true) :
    (processDwell state triggerResult params now).state.dwellReason
      = some triggerResult.reason := by
  unfold processDwell
  rw [hsr]
  simp only [Bool.not_true, Bool.false_eq_true, if_false]
  by_cases h : (state.dwellStartTime.isNone
      || !(state.dwellReason == some triggerResult.reason)) = true
  · rw [if_pos h]
  · rw [if_neg h]
    have h2 : state.dwellReason = some triggerResult.reason := by
      simp only [Bool.or_eq_true, not_or, Bool.not_eq_true',
        beq_eq_false_iff_ne, ne_eq, not_not] at h
      exact h.2
    split_ifs <;> exact h2

/-- C3: the dwell tracker clears on reason `none`, (re)starts at `now` on
a non-`none` reason with no matching active dwell — in particular a
reason change between two consecutive evaluations restarts at the second
evaluation's `now` — and with a matching active dwell fires exactly when
the elapsed time reaches `dwellSeconds`, leaving the state unchanged on
firing. The hypotheses record that the fed trigger result links
`shouldRebalance` to `reason ≠ none` (as `evaluateTrigger` constructs
it), and that a state with no dwell start carries no dwell reason (as
every constructor of the state maintains). -/
theorem processDwell_transitions (s : StrategyState) (tr : TriggerResult)
    (params : StrategyParams) (now : ℚ)
    (hsr : tr.shouldRebalance = !(tr.reason == TriggerReason.none))
    (hwf : s.dwellStartTime = Option.none → s.dwellReason = Option.none) :
    (tr.reason = .none →
      (processDwell s tr params now).dwellCompleted = false ∧
      (processDwell s tr params now).state.dwellStartTime = Option.none ∧
      (processDwell s tr params now).state.dwellReason = Option.none) ∧
    (tr.reason ≠ .none →
      (s.dwellStartTime = Option.none ∨ s.dwellReason ≠ some tr.reason) →
      (processDwell s tr params now).dwellCompleted = false ∧
      (processDwell s tr params now).state.dwellStartTime = some now ∧
      (processDwell s tr params now).state.dwellReason = some tr.reason) ∧
    (∀ start : ℚ, tr.reason ≠ .none → s.dwellStartTime = some start →
      s.dwellReason = some tr.reason →
      ((processDwell s tr params now).dwellCompleted = true ↔
        params.dwellSeconds ≤ (now - start) / 1000) ∧
      (processDwell s tr params now).state = s) ∧
    (∀ trA trB : TriggerResult, ∀ nowA nowB : ℚ,
      trA.shouldRebalance = !(trA.reason == TriggerReason.none) →
      trB.shouldRebalance = !(trB.reason == TriggerReason.none) →
      trA.reason ≠ .none → trB.reason ≠ .none → trA.reason ≠ trB.reason →
      (processDwell (processDwell s trA params nowA).state trB params
          nowB).state.dwellStartTime = some nowB) := by
  refine ⟨?_, ?_, ?_, ?_⟩
  · intro hnone
    have hsr0 : tr.shouldRebalance = false := by
      rw [hsr, hnone]
      rfl
    unfold processDwell
    rw [hsr0]
    simp only [Bool.not_false, if_true]
    cases hds : s.dwellStartTime with
    | none => simp [hds, hwf hds]
    | some start => simp [hds]
  · intro hne hcond
    have hsr1 : tr.shouldRebalance = true := by
      rw [hsr, beq_eq_false_iff_ne.mpr hne]
      rfl
    rw [processDwell_start_new s tr params now hsr1 hcond]
    exact ⟨rfl, rfl, rfl⟩
  · intro start hne hds hdr
    have hsr1 : tr.shouldRebalance = true := by
      rw [hsr, beq_eq_false_iff_ne.mpr hne]
      rfl
    unfold processDwell
    rw [hsr1]
    simp only [Bool.not_true, Bool.false_eq_true, if_false]
    rw [if_neg]
    · rw [hds]
      simp only [Option.getD_some]
      constructor
      · split_ifs with h
        · exact ⟨fun _ => h, fun _ => rfl⟩
        · exact ⟨fun hc => absurd hc (by simp), fun hc => absurd hc h⟩
      · split_ifs <;> rfl
    · rw [hds, hdr]
      simp
  · intro trA trB nowA nowB hsrA hsrB hneA hneB hAB
    have hsrA1 : trA.shouldRebalance = true := by
      rw [hsrA, beq_eq_false_iff_ne.mpr hneA]
      rfl
    have hsrB1 : trB.shouldRebalance = true := by
      rw [hsrB, beq_eq_false_iff_ne.mpr hneB]
      rfl
    have hra := processDwell_reason_after s trA params nowA hsrA1
    have hstep := processDwell_start_new (processDwell s trA params nowA).state
      trB params nowB hsrB1 (Or.inr (by rw [hra]; simp [hAB]))
    rw [hstep]


/-- Witness for C3, exercising all four clauses on concrete data: a
`none` reason clears an active dwell; a fresh `out_of_range` trigger on
an idle state starts the dwell at `now = 5000`; a matching active dwell
started at 1000 fires at `now = 11000` with `dwellSeconds = 10`, leaving
the state unchanged; and a reason change `out_of_range →
near_lower_edge` restarts the dwell at the second `now = 7000`. -/
theorem processDwell_transitions_witness :
    ((processDwell ⟨.none, some 1000, some .out_of_range, 0, Option.none,
        Option.none⟩ ⟨false, .none, ⟨50, 0, 0, 100, 0, 0, Option.none,
        Option.none, Option.none⟩⟩ ⟨1/10, 2/100, 10, 180⟩
        2000).state.dwellStartTime = Option.none) ∧
    ((processDwell createStrategyState ⟨true, .out_of_range, ⟨150, 0, 0,
        100, 0, 0, Option.none, Option.none, Option.none⟩⟩
        ⟨1/10, 2/100, 10, 180⟩ 5000).state.dwellStartTime = some 5000) ∧
    ((processDwell ⟨.none, some 1000, some .out_of_range, 0, Option.none,
        Option.none⟩ ⟨true, .out_of_range, ⟨150, 0, 0, 100, 0, 0,
        Option.none, Option.none, Option.none⟩⟩ ⟨1/10, 2/100, 10, 180⟩
        11000).dwellCompleted = true) ∧
    ((processDwell ⟨.none, some 1000, some .out_of_range, 0, Option.none,
        Option.none⟩ ⟨true, .out_of_range, ⟨150, 0, 0, 100, 0, 0,
        Option.none, Option.none, Option.none⟩⟩ ⟨1/10, 2/100, 10, 180⟩
        11000).state
      = ⟨.none, some 1000, some .out_of_range, 0, Option.none,
        Option.none⟩) ∧
    ((processDwell (processDwell createStrategyState ⟨true, .out_of_range,
        ⟨150, 0, 0, 100, 0, 0, Option.none, Option.none, Option.none⟩⟩
        ⟨1/10, 2/100, 10, 180⟩ 5000).state ⟨true, .near_lower_edge,
        ⟨1, 0, 0, 100, 0, 0, Option.none, Option.none, Option.none⟩⟩
        ⟨1/10, 2/100, 10, 180⟩ 7000).state.dwellStartTime = some 7000) := by
  refine ⟨?_, ?_, ?_, ?_, ?_⟩
  · exact ((processDwell_transitions
      ⟨.none, some 1000, some .out_of_range, 0, Option.none, Option.none⟩
      ⟨false, .none, ⟨50, 0, 0, 100, 0, 0, Option.none, Option.none,
        Option.none⟩⟩
      ⟨1/10, 2/100, 10, 180⟩ 2000 (by decide)
      (fun h => absurd h (by decide))).1 rfl).2.1
  · exact ((processDwell_transitions createStrategyState
      ⟨true, .out_of_range, ⟨150, 0, 0, 100, 0, 0, Option.none, Option.none,
        Option.none⟩⟩
      ⟨1/10, 2/100, 10, 180⟩ 5000 (by decide) (fun _ => rfl)).2.1
      (by decide) (Or.inl rfl)).2.1
  · exact ((processDwell_transitions
      ⟨.none, some 1000, some .out_of_range, 0, Option.none, Option.none⟩
      ⟨true, .out_of_range, ⟨150, 0, 0, 100, 0, 0, Option.none, Option.none,
        Option.none⟩⟩
      ⟨1/10, 2/100, 10, 180⟩ 11000 (by decide)
      (fun h => absurd h (by decide))).2.2.1 1000 (by decide)
      rfl rfl).1.mpr (by norm_num)
  · exact ((processDwell_transitions
      ⟨.none, some 1000, some .out_of_range, 0, Option.none, Option.none⟩
      ⟨true, .out_of_range, ⟨150, 0, 0, 100, 0, 0, Option.none, Option.none,
        Option.none⟩⟩
      ⟨1/10, 2/100, 10, 180⟩ 11000 (by decide)
      (fun h => absurd h (by decide))).2.2.1 1000 (by decide)
      rfl rfl).2
  · exact (processDwell_transitions createStrategyState
      ⟨true, .out_of_range, ⟨150, 0, 0, 100, 0, 0, Option.none, Option.none,
        Option.none⟩⟩
      ⟨1/10, 2/100, 10, 180⟩ 0 (by decide) (fun _ => rfl)).2.2.2
      ⟨true, .out_of_range, ⟨150, 0, 0, 100, 0, 0, Option.none, Option.none,
        Option.none⟩⟩
      ⟨true, .near_lower_edge, ⟨1, 0, 0, 100, 0, 0, Option.none, Option.none,
        Option.none⟩⟩
      5000 7000 (by decide) (by decide) (by decide) (by decide) (by decide)
/-! ### C4: evaluateTick frame conditions -/

/-- Every return path of `runStrategyEvaluation` carries the state
produced by `processDwell`. -/
theorem runStrategyEvaluation_newState (tickIndexToPrice : ℤ → ℕ → ℕ → ℚ)
    (s : StrategyState) (w : WhirlpoolInfo) (pos : PositionInfo)
    (params : StrategyParams) (dA dB : ℕ) (nowDwell nowCooldown : ℚ) :
    (runStrategyEvaluation tickIndexToPrice s w pos params dA dB
        nowDwell nowCooldown).newState
      = (processDwell s (evaluateTrigger tickIndexToPrice s w pos params
          dA dB) params nowDwell).state := by
  unfold runStrategyEvaluation
  dsimp only
  split_ifs <;> rfl

/-- A no-trigger `processDwell` call on an idle dwell leaves the state
untouched. -/
theorem processDwell_idle_noop (state : StrategyState)
    (triggerResult : TriggerResult) (params : StrategyParams) (now : ℚ)
    (hsr : triggerResult.shouldRebalance = false)
    (hds : state.dwellStartTime = Option.none) :
    (processDwell state triggerResult params now).state = state := by
  unfold processDwell
  rw [hsr]
  simp [hds]

/-- C4: `runStrategyEvaluation` never changes `lastRebalanceTime` on any
path; when the dwell completed but the cooldown gate blocks, the
returned state's dwell fields are those of the input state (the trigger
is not consumed); and with reason `none` on an idle state the returned
state is the input state, keeping the dwell fields at none/none. -/
theorem runStrategyEvaluation_frame (tickIndexToPrice : ℤ → ℕ → ℕ → ℚ)
    (s : StrategyState) (w : WhirlpoolInfo) (pos : PositionInfo)
    (params : StrategyParams) (dA dB : ℕ) (nowDwell nowCooldown : ℚ) :
    ((runStrategyEvaluation tickIndexToPrice s w pos params dA dB
        nowDwell nowCooldown).newState.lastRebalanceTime
      = s.lastRebalanceTime) ∧
    ((processDwell s (evaluateTrigger tickIndexToPrice s w pos params
          dA dB) params nowDwell).dwellCompleted = true →
      (checkCooldown (processDwell s (evaluateTrigger tickIndexToPrice s w
          pos params dA dB) params nowDwell).state params
          nowCooldown).canRebalance = false →
      (runStrategyEvaluation tickIndexToPrice s w pos params dA dB
          nowDwell nowCooldown).newState.dwellStartTime = s.dwellStartTime ∧
      (runStrategyEvaluation tickIndexToPrice s w pos params dA dB
          nowDwell nowCooldown).newState.dwellReason = s.dwellReason) ∧
    ((evaluateTrigger tickIndexToPrice s w pos params dA dB).reason = .none →
      s.dwellStartTime = Option.none →
      (runStrategyEvaluation tickIndexToPrice s w pos params dA dB
          nowDwell nowCooldown).newState = s) := by
  rw [runStrategyEvaluation_newState]
  refine ⟨?_, ?_, ?_⟩
  · exact processDwell_lastRebalanceTime _ _ _ _
  · intro hcomp _
    rw [processDwell_completed_state _ _ _ _ hcomp]
    exact ⟨rfl, rfl⟩
  · intro hreason hds
    refine processDwell_idle_noop _ _ _ _ ?_ hds
    rw [evaluateTrigger_shouldRebalance, hreason]
    rfl

/-- Witness for C4: a fired `out_of_range` dwell (started at 0, evaluated
at 10000 ms with a 10 s dwell) blocked by cooldown (1000 ms elapsed of a
180 s interval) keeps dwell fields intact, and an in-range tick with zero
buffer on the initial state returns it unchanged. -/
theorem runStrategyEvaluation_frame_witness :
    ((runStrategyEvaluation (fun _ _ _ => 0)
        ⟨.none, some 0, some .out_of_range, 0, Option.none, Option.none⟩
        ⟨"w", "ma", "mb", 64, 0, 150, 0, 0⟩ ⟨"p", "w", 0, 100, 0, 0, 0, []⟩
        ⟨1/10, 2/100, 10, 180⟩ 6 6 10000 1000).newState.dwellStartTime
      = some 0) ∧
    ((runStrategyEvaluation (fun _ _ _ => 0)
        ⟨.none, some 0, some .out_of_range, 0, Option.none, Option.none⟩
        ⟨"w", "ma", "mb", 64, 0, 150, 0, 0⟩ ⟨"p", "w", 0, 100, 0, 0, 0, []⟩
        ⟨1/10, 2/100, 10, 180⟩ 6 6 10000 1000).newState.dwellReason
      = some .out_of_range) ∧
    ((runStrategyEvaluation (fun _ _ _ => 0) createStrategyState
        ⟨"w", "ma", "mb", 64, 0, 50, 0, 0⟩ ⟨"p", "w", 0, 100, 0, 0, 0, []⟩
        ⟨1/10, 0, 10, 180⟩ 6 6 2000 2000).newState
      = createStrategyState) := by
  have h := (runStrategyEvaluation_frame (fun _ _ _ => 0)
    ⟨.none, some 0, some .out_of_range, 0, Option.none, Option.none⟩
    ⟨"w", "ma", "mb", 64, 0, 150, 0, 0⟩ ⟨"p", "w", 0, 100, 0, 0, 0, []⟩
    ⟨1/10, 2/100, 10, 180⟩ 6 6 10000 1000).2.1
    (by norm_num [processDwell, evaluateTrigger, isPriceInRange,
      calculateEdgeDistance,
      show ¬(TriggerReason.out_of_range = TriggerReason.none) by decide])
    (by norm_num [processDwell, evaluateTrigger, isPriceInRange,
      calculateEdgeDistance, checkCooldown,
      show ¬(TriggerReason.out_of_range = TriggerReason.none) by decide])
  have h3 := (runStrategyEvaluation_frame (fun _ _ _ => 0)
    createStrategyState ⟨"w", "ma", "mb", 64, 0, 50, 0, 0⟩
    ⟨"p", "w", 0, 100, 0, 0, 0, []⟩ ⟨1/10, 0, 10, 180⟩ 6 6 2000 2000).2.2
    (by norm_num [evaluateTrigger, isPriceInRange, calculateEdgeDistance])
    rfl
  exact ⟨h.1, h.2, h3⟩

/-! ### C8: determinism of the decision step -/

/-- C8: `runStrategyEvaluation` is a pure decision step — embedded as a
function of its explicit inputs (state, pool snapshot, position snapshot,
params, decimals and the clock reads), two invocations on equal inputs
return the identical decision, reason, new state and details. -/
theorem runStrategyEvaluation_deterministic (tickIndexToPrice : ℤ → ℕ → ℕ → ℚ)
    (s s' : StrategyState) (w w' : WhirlpoolInfo) (pos pos' : PositionInfo)
    (params params' : StrategyParams) (dA dA' dB dB' : ℕ)
    (n₁ n₁' n₂ n₂' : ℚ)
    (hs : s = s') (hw : w = w') (hpos : pos = pos')
    (hparams : params = params') (hdA : dA = dA') (hdB : dB = dB')
    (hn₁ : n₁ = n₁') (hn₂ : n₂ = n₂') :
    runStrategyEvaluation tickIndexToPrice s w pos params dA dB n₁ n₂
      = runStrategyEvaluation tickIndexToPrice s' w' pos' params' dA' dB'
          n₁' n₂' := by
  subst hs hw hpos hparams hdA hdB hn₁ hn₂
  rfl

/-- Witness for C8 at a concrete input. -/
theorem runStrategyEvaluation_deterministic_witness :
    runStrategyEvaluation (fun _ _ _ => 0) createStrategyState
        ⟨"w", "ma", "mb", 64, 0, 150, 0, 0⟩ ⟨"p", "w", 0, 100, 0, 0, 0, []⟩
        ⟨1/10, 2/100, 10, 180⟩ 6 6 1000 1000
      = runStrategyEvaluation (fun _ _ _ => 0) createStrategyState
        ⟨"w", "ma", "mb", 64, 0, 150, 0, 0⟩ ⟨"p", "w", 0, 100, 0, 0, 0, []⟩
        ⟨1/10, 2/100, 10, 180⟩ 6 6 1000 1000 :=
  runStrategyEvaluation_deterministic (fun _ _ _ => 0)
    createStrategyState createStrategyState
    ⟨"w", "ma", "mb", 64, 0, 150, 0, 0⟩ ⟨"w", "ma", "mb", 64, 0, 150, 0, 0⟩
    ⟨"p", "w", 0, 100, 0, 0, 0, []⟩ ⟨"p", "w", 0, 100, 0, 0, 0, []⟩
    ⟨1/10, 2/100, 10, 180⟩ ⟨1/10, 2/100, 10, 180⟩ 6 6 6 6 1000 1000 1000 1000
    rfl rfl rfl rfl rfl rfl rfl rfl

/-! ### C10: a go decision names a real trigger and passed both gates -/

/-- The decision of `runStrategyEvaluation` is the conjunction of the
dwell completing and the cooldown gate allowing. -/
theorem runStrategyEvaluation_shouldRebalance_eq
    (tickIndexToPrice : ℤ → ℕ → ℕ → ℚ) (s : StrategyState)
    (w : WhirlpoolInfo) (pos : PositionInfo) (params : StrategyParams)
    (dA dB : ℕ) (nowDwell nowCooldown : ℚ) :
    (runStrategyEvaluation tickIndexToPrice s w pos params dA dB
        nowDwell nowCooldown).shouldRebalance
      = ((processDwell s (evaluateTrigger tickIndexToPrice s w pos params
            dA dB) params nowDwell).dwellCompleted
          && (checkCooldown (processDwell s (evaluateTrigger tickIndexToPrice
            s w pos params dA dB) params nowDwell).state params
            nowCooldown).canRebalance) := by
  unfold runStrategyEvaluation
  dsimp only
  split_ifs with h1 h2 <;> simp_all

/-- The reason returned by `runStrategyEvaluation` is the trigger
evaluator's reason, on every path. -/
theorem runStrategyEvaluation_reason (tickIndexToPrice : ℤ → ℕ → ℕ → ℚ)
    (s : StrategyState) (w : WhirlpoolInfo) (pos : PositionInfo)
    (params : StrategyParams) (dA dB : ℕ) (nowDwell nowCooldown : ℚ) :
    (runStrategyEvaluation tickIndexToPrice s w pos params dA dB
        nowDwell nowCooldown).reason
      = (evaluateTrigger tickIndexToPrice s w pos params dA dB).reason := by
  unfold runStrategyEvaluation
  dsimp only
  split_ifs <;> rfl

/-- C10: whenever the full evaluation returns `shouldRebalance = true`,
the returned reason is one of `out_of_range`, `near_lower_edge`,
`near_upper_edge` — never `none` — and on that evaluation the dwell
completed and the cooldown gate allowed. -/
theorem runStrategyEvaluation_go_implies (tickIndexToPrice : ℤ → ℕ → ℕ → ℚ)
    (s : StrategyState) (w : WhirlpoolInfo) (pos : PositionInfo)
    (params : StrategyParams) (dA dB : ℕ) (nowDwell nowCooldown : ℚ)
    (h : (runStrategyEvaluation tickIndexToPrice s w pos params dA dB
        nowDwell nowCooldown).shouldRebalance = true) :
    ((runStrategyEvaluation tickIndexToPrice s w pos params dA dB
        nowDwell nowCooldown).reason = .out_of_range ∨
      (runStrategyEvaluation tickIndexToPrice s w pos params dA dB
        nowDwell nowCooldown).reason = .near_lower_edge ∨
      (runStrategyEvaluation tickIndexToPrice s w pos params dA dB
        nowDwell nowCooldown).reason = .near_upper_edge) ∧
    (processDwell s (evaluateTrigger tickIndexToPrice s w pos params dA dB)
        params nowDwell).dwellCompleted = true ∧
    (checkCooldown (processDwell s (evaluateTrigger tickIndexToPrice s w pos
        params dA dB) params nowDwell).state params
        nowCooldown).canRebalance = true := by
  rw [runStrategyEvaluation_shouldRebalance_eq] at h
  rw [Bool.and_eq_true] at h
  have hner : (evaluateTrigger tickIndexToPrice s w pos params dA dB).reason
      ≠ .none := by
    have hsr := processDwell_completed_shouldRebalance _ _ _ _ h.1
    rw [evaluateTrigger_shouldRebalance] at hsr
    intro hcontra
    rw [hcontra] at hsr
    exact absurd hsr (by decide)
  refine ⟨?_, h.1, h.2⟩
  rw [runStrategyEvaluation_reason]
  cases hr : (evaluateTrigger tickIndexToPrice s w pos params dA dB).reason
  · exact absurd hr hner
  · exact Or.inl rfl
  · exact Or.inr (Or.inl rfl)
  · exact Or.inr (Or.inr rfl)

/-- Witness for C10: out-of-range tick, dwell satisfied, cooldown open —
the go decision carries `out_of_range`. -/
theorem runStrategyEvaluation_go_implies_witness :
    ((runStrategyEvaluation (fun _ _ _ => 0)
        ⟨.none, some 0, some .out_of_range, 0, Option.none, Option.none⟩
        ⟨"w", "ma", "mb", 64, 0, 150, 0, 0⟩ ⟨"p", "w", 0, 100, 0, 0, 0, []⟩
        ⟨1/10, 2/100, 10, 180⟩ 6 6 10000 1000000).reason = .out_of_range ∨
      (runStrategyEvaluation (fun _ _ _ => 0)
        ⟨.none, some 0, some .out_of_range, 0, Option.none, Option.none⟩
        ⟨"w", "ma", "mb", 64, 0, 150, 0, 0⟩ ⟨"p", "w", 0, 100, 0, 0, 0, []⟩
        ⟨1/10, 2/100, 10, 180⟩ 6 6 10000 1000000).reason
          = .near_lower_edge ∨
      (runStrategyEvaluation (fun _ _ _ => 0)
        ⟨.none, some 0, some .out_of_range, 0, Option.none, Option.none⟩
        ⟨"w", "ma", "mb", 64, 0, 150, 0, 0⟩ ⟨"p", "w", 0, 100, 0, 0, 0, []⟩
        ⟨1/10, 2/100, 10, 180⟩ 6 6 10000 1000000).reason
          = .near_upper_edge) ∧
    (processDwell
        ⟨.none, some 0, some .out_of_range, 0, Option.none, Option.none⟩
        (evaluateTrigger (fun _ _ _ => 0)
          ⟨.none, some 0, some .out_of_range, 0, Option.none, Option.none⟩
          ⟨"w", "ma", "mb", 64, 0, 150, 0, 0⟩ ⟨"p", "w", 0, 100, 0, 0, 0, []⟩
          ⟨1/10, 2/100, 10, 180⟩ 6 6) ⟨1/10, 2/100, 10, 180⟩
        10000).dwellCompleted = true ∧
    (checkCooldown (processDwell
        ⟨.none, some 0, some .out_of_range, 0, Option.none, Option.none⟩
        (evaluateTrigger (fun _ _ _ => 0)
          ⟨.none, some 0, some .out_of_range, 0, Option.none, Option.none⟩
          ⟨"w", "ma", "mb", 64, 0, 150, 0, 0⟩ ⟨"p", "w", 0, 100, 0, 0, 0, []⟩
          ⟨1/10, 2/100, 10, 180⟩ 6 6) ⟨1/10, 2/100, 10, 180⟩ 10000).state
        ⟨1/10, 2/100, 10, 180⟩ 1000000).canRebalance = true :=
  runStrategyEvaluation_go_implies (fun _ _ _ => 0)
    ⟨.none, some 0, some .out_of_range, 0, Option.none, Option.none⟩
    ⟨"w", "ma", "mb", 64, 0, 150, 0, 0⟩ ⟨"p", "w", 0, 100, 0, 0, 0, []⟩
    ⟨1/10, 2/100, 10, 180⟩ 6 6 10000 1000000
    (by norm_num [runStrategyEvaluation, processDwell, evaluateTrigger,
      isPriceInRange, calculateEdgeDistance, checkCooldown,
      show ¬(TriggerReason.out_of_range = TriggerReason.none) by decide])

/-! ### C6: symmetric range computation -/

/-- C6 (amended): `calculateTickRange` computes `lowerPrice =
center / (1 + widthFraction)` and `upperPrice = center * (1 +
widthFraction)`, keeps the center, converts both prices to ticks with the
venue SDK's initializable-tick conversion (passed in; this function adds
no directional snap of its own), and swaps the two ticks when the
conversion inverts their order, so the result always satisfies
`lowerTick ≤ upperTick`; it performs no `widthFraction` validation —
every width yields a result. -/
theorem calculateTickRange_properties
    (priceToInitializableTickIndex : ℚ → ℕ → ℕ → ℤ → ℤ)
    (centerPrice rangeWidthPercent : ℚ) (tickSpacing : ℤ)
    (decimalsA decimalsB : ℕ) :
    ((calculateTickRange priceToInitializableTickIndex centerPrice
        rangeWidthPercent tickSpacing decimalsA decimalsB).lowerPrice
      = centerPrice / (1 + rangeWidthPercent)) ∧
    ((calculateTickRange priceToInitializableTickIndex centerPrice
        rangeWidthPercent tickSpacing decimalsA decimalsB).upperPrice
      = centerPrice * (1 + rangeWidthPercent)) ∧
    ((calculateTickRange priceToInitializableTickIndex centerPrice
        rangeWidthPercent tickSpacing decimalsA decimalsB).centerPrice
      = centerPrice) ∧
    ((calculateTickRange priceToInitializableTickIndex centerPrice
        rangeWidthPercent tickSpacing decimalsA decimalsB).lowerTick
      ≤ (calculateTickRange priceToInitializableTickIndex centerPrice
        rangeWidthPercent tickSpacing decimalsA decimalsB).upperTick) := by
  unfold calculateTickRange
  dsimp only
  split_ifs with h
  · exact ⟨rfl, rfl, rfl, le_of_lt h⟩
  · exact ⟨rfl, rfl, rfl, le_of_not_lt h⟩

/-- Counterexample for C6 as stated: at `widthFraction = 2`, outside
`(0, 1)`, `calculateTickRange` does not fail with `InvalidParameter` —
it has no failure path at all and returns an ordinary `PriceRange`
(here with a trivial conversion function mapping every price to tick
0). -/
theorem calculateTickRange_no_width_validation :
    calculateTickRange (fun _ _ _ _ => 0) 1 2 64 6 6
      = { lowerPrice := 1 / 3
          upperPrice := 3
          lowerTick := 0
          upperTick := 0
          centerPrice := 1 } := by
  norm_num [calculateTickRange]

/-! ### C1 and C7: migration orchestrator -/

/-- C1: the state fold of `executeRebalance`. A new position exists in
the result exactly when the attempt reports success — including the
partial-success path where the step-5 deposit failed after a successful
open, which never affects `success` — and on success the fold sets
`lastRebalanceTime := now` and clears the dwell fields and trigger
reason, while on total failure it clears the dwell fields but leaves
`lastRebalanceTime` untouched, so cooldown is not engaged. -/
theorem executeRebalance_state_fold
    (priceToInitializableTickIndex : ℚ → ℕ → ℕ → ℤ → ℤ)
    (sqrtPriceX64ToPrice : ℕ → ℕ → ℕ → ℚ) (dryRun : Bool)
    (rangeWidthPercent : ℚ) (s : StrategyState)
    (currentPosition : PositionInfo) (whirlpoolInfo : WhirlpoolInfo)
    (decimalsA decimalsB : ℕ) (outcomes : VenueOutcomes) (now : ℚ) :
    ((executeRebalance priceToInitializableTickIndex sqrtPriceX64ToPrice
        dryRun rangeWidthPercent s currentPosition whirlpoolInfo decimalsA
        decimalsB outcomes now).result.newPosition.isSome
      = (executeRebalance priceToInitializableTickIndex sqrtPriceX64ToPrice
        dryRun rangeWidthPercent s currentPosition whirlpoolInfo decimalsA
        decimalsB outcomes now).result.success) ∧
    ((executeRebalance priceToInitializableTickIndex sqrtPriceX64ToPrice
        dryRun rangeWidthPercent s currentPosition whirlpoolInfo decimalsA
        decimalsB outcomes now).result.success = true →
      (executeRebalance priceToInitializableTickIndex sqrtPriceX64ToPrice
        dryRun rangeWidthPercent s currentPosition whirlpoolInfo decimalsA
        decimalsB outcomes now).newState = markRebalanceComplete s now) ∧
    ((executeRebalance priceToInitializableTickIndex sqrtPriceX64ToPrice
        dryRun rangeWidthPercent s currentPosition whirlpoolInfo decimalsA
        decimalsB outcomes now).result.success = false →
      (executeRebalance priceToInitializableTickIndex sqrtPriceX64ToPrice
        dryRun rangeWidthPercent s currentPosition whirlpoolInfo decimalsA
        decimalsB outcomes now).newState = markRebalanceFailed s) ∧
    ((executeRebalance priceToInitializableTickIndex sqrtPriceX64ToPrice
        dryRun rangeWidthPercent s currentPosition whirlpoolInfo decimalsA
        decimalsB { outcomes with deposited := true } now).result.success
      = (executeRebalance priceToInitializableTickIndex sqrtPriceX64ToPrice
        dryRun rangeWidthPercent s currentPosition whirlpoolInfo decimalsA
        decimalsB { outcomes with deposited := false } now).result.success) := by
  rcases outcomes with ⟨fees, closed, addr, bA, bB, dep⟩
  refine ⟨?_, ?_, ?_, rfl⟩
  all_goals
    unfold executeRebalance
    dsimp only
    cases dryRun <;> cases closed <;> cases addr <;> cases fees <;>
      simp [markRebalanceComplete, markRebalanceFailed]

/-- Witness for C1: a live failure at the close step keeps
`lastRebalanceTime` at 0 while clearing the dwell, and a live success
(all venue calls succeed) stamps `lastRebalanceTime := 99000` and clears
dwell and trigger fields; the deposit outcome never changes `success`. -/
theorem executeRebalance_state_fold_witness :
    ((executeRebalance (fun _ _ _ _ => 0) (fun _ _ _ => 1) false (1/10)
        ⟨.out_of_range, some 1000, some .out_of_range, 55, Option.none,
          Option.none⟩
        ⟨"p", "w", 0, 100, 5, 0, 0, []⟩ ⟨"w", "ma", "mb", 64, 1, 150, 0, 0⟩
        6 6 ⟨some (3, 4), false, some "new", 10, 20, true⟩
        99000).newState
      = markRebalanceFailed ⟨.out_of_range, some 1000, some .out_of_range,
          55, Option.none, Option.none⟩) ∧
    ((executeRebalance (fun _ _ _ _ => 0) (fun _ _ _ => 1) false (1/10)
        ⟨.out_of_range, some 1000, some .out_of_range, 55, Option.none,
          Option.none⟩
        ⟨"p", "w", 0, 100, 5, 0, 0, []⟩ ⟨"w", "ma", "mb", 64, 1, 150, 0, 0⟩
        6 6 ⟨some (3, 4), true, some "new", 10, 20, false⟩
        99000).newState
      = markRebalanceComplete ⟨.out_of_range, some 1000, some .out_of_range,
          55, Option.none, Option.none⟩ 99000) ∧
    ((executeRebalance (fun _ _ _ _ => 0) (fun _ _ _ => 1) false (1/10)
        ⟨.out_of_range, some 1000, some .out_of_range, 55, Option.none,
          Option.none⟩
        ⟨"p", "w", 0, 100, 5, 0, 0, []⟩ ⟨"w", "ma", "mb", 64, 1, 150, 0, 0⟩
        6 6 ⟨some (3, 4), true, some "new", 10, 20, true⟩
        99000).result.success
      = (executeRebalance (fun _ _ _ _ => 0) (fun _ _ _ => 1) false (1/10)
        ⟨.out_of_range, some 1000, some .out_of_range, 55, Option.none,
          Option.none⟩
        ⟨"p", "w", 0, 100, 5, 0, 0, []⟩ ⟨"w", "ma", "mb", 64, 1, 150, 0, 0⟩
        6 6 ⟨some (3, 4), true, some "new", 10, 20, false⟩
        99000).result.success) := by
  refine ⟨?_, ?_, ?_⟩
  · exact (executeRebalance_state_fold (fun _ _ _ _ => 0) (fun _ _ _ => 1)
      false (1/10) ⟨.out_of_range, some 1000, some .out_of_range, 55,
        Option.none, Option.none⟩
      ⟨"p", "w", 0, 100, 5, 0, 0, []⟩ ⟨"w", "ma", "mb", 64, 1, 150, 0, 0⟩
      6 6 ⟨some (3, 4), false, some "new", 10, 20, true⟩ 99000).2.2.1
      (by norm_num [executeRebalance])
  · exact (executeRebalance_state_fold (fun _ _ _ _ => 0) (fun _ _ _ => 1)
      false (1/10) ⟨.out_of_range, some 1000, some .out_of_range, 55,
        Option.none, Option.none⟩
      ⟨"p", "w", 0, 100, 5, 0, 0, []⟩ ⟨"w", "ma", "mb", 64, 1, 150, 0, 0⟩
      6 6 ⟨some (3, 4), true, some "new", 10, 20, false⟩ 99000).2.1
      (by norm_num [executeRebalance])
  · exact (executeRebalance_state_fold (fun _ _ _ _ => 0) (fun _ _ _ => 1)
      false (1/10) ⟨.out_of_range, some 1000, some .out_of_range, 55,
        Option.none, Option.none⟩
      ⟨"p", "w", 0, 100, 5, 0, 0, []⟩ ⟨"w", "ma", "mb", 64, 1, 150, 0, 0⟩
      6 6 ⟨some (3, 4), true, some "new", 10, 20, true⟩ 99000).2.2.2

/-- C7: step ordering of a migration attempt. The close (steps 2–3) is
always attempted — a step-1 fee-collection failure does not abort, and
the trace never depends on the step-1 outcome; a live close failure
aborts immediately with exactly the first two calls issued and no
success, and the new-position open is never attempted in an attempt
whose close failed outside dry-run. -/
theorem executeRebalance_step_ordering
    (priceToInitializableTickIndex : ℚ → ℕ → ℕ → ℤ → ℤ)
    (sqrtPriceX64ToPrice : ℕ → ℕ → ℕ → ℚ) (dryRun : Bool)
    (rangeWidthPercent : ℚ) (s : StrategyState)
    (currentPosition : PositionInfo) (whirlpoolInfo : WhirlpoolInfo)
    (decimalsA decimalsB : ℕ) (outcomes : VenueOutcomes) (now : ℚ) :
    (VenueCall.closeOld ∈ (executeRebalance priceToInitializableTickIndex
        sqrtPriceX64ToPrice dryRun rangeWidthPercent s currentPosition
        whirlpoolInfo decimalsA decimalsB outcomes now).calls) ∧
    (∀ fees' : Option (ℕ × ℕ),
      (executeRebalance priceToInitializableTickIndex sqrtPriceX64ToPrice
        dryRun rangeWidthPercent s currentPosition whirlpoolInfo decimalsA
        decimalsB { outcomes with fees := fees' } now).calls
      = (executeRebalance priceToInitializableTickIndex sqrtPriceX64ToPrice
        dryRun rangeWidthPercent s currentPosition whirlpoolInfo decimalsA
        decimalsB outcomes now).calls) ∧
    (outcomes.closed = false → dryRun = false →
      (executeRebalance priceToInitializableTickIndex sqrtPriceX64ToPrice
        dryRun rangeWidthPercent s currentPosition whirlpoolInfo decimalsA
        decimalsB outcomes now).calls = [.collectFees, .closeOld] ∧
      (executeRebalance priceToInitializableTickIndex sqrtPriceX64ToPrice
        dryRun rangeWidthPercent s currentPosition whirlpoolInfo decimalsA
        decimalsB outcomes now).result.success = false) ∧
    (outcomes.closed = false → dryRun = false →
      VenueCall.openNew ∉ (executeRebalance priceToInitializableTickIndex
        sqrtPriceX64ToPrice dryRun rangeWidthPercent s currentPosition
        whirlpoolInfo decimalsA decimalsB outcomes now).calls) := by
  rcases outcomes with ⟨fees, closed, addr, bA, bB, dep⟩
  refine ⟨?_, ?_, ?_, ?_⟩
  · unfold executeRebalance
    dsimp only
    cases dryRun <;> cases closed <;> cases addr <;> cases fees <;>
      split_ifs <;> simp
  · intro fees'
    unfold executeRebalance
    dsimp only
    cases fees <;> cases fees' <;> split_ifs <;> rfl
  · intro hc hd
    subst hc hd
    unfold executeRebalance
    dsimp only
    cases fees <;> simp
  · intro hc hd
    subst hc hd
    unfold executeRebalance
    dsimp only
    cases fees <;> simp

/-- Witness for C7: with step 1 failing (`fees = none`) and a live close
failure, the attempt issues exactly `[collectFees, closeOld]`, does not
open, and reports no success; with the close succeeding the open is
attempted even though step 1 failed. -/
theorem executeRebalance_step_ordering_witness :
    ((executeRebalance (fun _ _ _ _ => 0) (fun _ _ _ => 1) false (1/10)
        createStrategyState ⟨"p", "w", 0, 100, 5, 0, 0, []⟩
        ⟨"w", "ma", "mb", 64, 1, 150, 0, 0⟩ 6 6
        ⟨Option.none, false, Option.none, 10, 20, true⟩ 99000).calls
      = [.collectFees, .closeOld]) ∧
    (VenueCall.openNew ∉ (executeRebalance (fun _ _ _ _ => 0)
        (fun _ _ _ => 1) false (1/10) createStrategyState
        ⟨"p", "w", 0, 100, 5, 0, 0, []⟩ ⟨"w", "ma", "mb", 64, 1, 150, 0, 0⟩
        6 6 ⟨Option.none, false, Option.none, 10, 20, true⟩ 99000).calls) ∧
    (VenueCall.closeOld ∈ (executeRebalance (fun _ _ _ _ => 0)
        (fun _ _ _ => 1) false (1/10) createStrategyState
        ⟨"p", "w", 0, 100, 5, 0, 0, []⟩ ⟨"w", "ma", "mb", 64, 1, 150, 0, 0⟩
        6 6 ⟨Option.none, true, some "new", 10, 20, true⟩ 99000).calls) := by
  refine ⟨?_, ?_, ?_⟩
  · exact ((executeRebalance_step_ordering (fun _ _ _ _ => 0)
      (fun _ _ _ => 1) false (1/10) createStrategyState
      ⟨"p", "w", 0, 100, 5, 0, 0, []⟩ ⟨"w", "ma", "mb", 64, 1, 150, 0, 0⟩
      6 6 ⟨Option.none, false, Option.none, 10, 20, true⟩ 99000).2.2.1
      rfl rfl).1
  · exact (executeRebalance_step_ordering (fun _ _ _ _ => 0)
      (fun _ _ _ => 1) false (1/10) createStrategyState
      ⟨"p", "w", 0, 100, 5, 0, 0, []⟩ ⟨"w", "ma", "mb", 64, 1, 150, 0, 0⟩
      6 6 ⟨Option.none, false, Option.none, 10, 20, true⟩ 99000).2.2.2
      rfl rfl
  · exact (executeRebalance_step_ordering (fun _ _ _ _ => 0)
      (fun _ _ _ => 1) false (1/10) createStrategyState
      ⟨"p", "w", 0, 100, 5, 0, 0, []⟩ ⟨"w", "ma", "mb", 64, 1, 150, 0, 0⟩
      6 6 ⟨Option.none, true, some "new", 10, 20, true⟩ 99000).1

end StableBot
